import Mathlib

/-! The ckb-debugger file-write example (`examples/file_write.c`).

A shallow embedding of the two functions of `file_write.c`:

```c
int file_write(const char* path, void *ptr, size_t size) {
    return syscall(9013, path, ptr, size, 0, 0, 0);
}

int main() {
    char *data = "Hello World!\n";
    size_t size = 13;
    file_write("file_write_foo.txt", data, size);
    return 0;
}
```

The guest program runs against a host (the debugger). The host is a parameter
of the development: every statement below is quantified over all hosts, all
host states and, where it makes sense, all guest states. What a run hands to
the host is observed on the host side: a recorder placed in front of an
arbitrary host keeps every call it receives together with the guest memory it
receives it with.
-/

namespace FileWrite

/-! ## Data model -/

/-- A byte of guest memory, as a natural number. -/
abbrev Byte := Nat

/-- A C pointer value: the null pointer, or a byte offset into a memory object. -/
inductive Ptr where
  | null
  | obj (block : Nat) (off : Nat)
  deriving DecidableEq, Repr

/-- Guest memory: a list of objects, each one a sequence of bytes. -/
abbrev Memory := List (List Byte)

/-- A value of the C type `int` of the target (32 bits, two's complement). -/
structure CInt where
  val : Int
  lo : -2147483648 ≤ val
  hi : val ≤ 2147483647
  deriving DecidableEq

/-- The `int` constant `0`. -/
def CInt.zero : CInt := ⟨0, by decide, by decide⟩

/-- Conversion of an integer value to `int`, as a `return` in a function of
result type `int` performs it: a value in the range of `int` is kept, any
other one is reduced modulo 2^32 into that range (the behaviour of the
target's compiler). -/
def toInt (v : Int) : CInt :=
  ⟨(v + 2147483648) % 4294967296 - 2147483648, by omega, by omega⟩

/-- An argument expression handed to `syscall`, tagged with the C type it has
at the call site in `file_write`: a pointer, a `size_t`, or an `int` literal. -/
inductive Arg where
  | ptr (p : Ptr)
  | size (n : Nat)
  | int (i : Int)
  deriving DecidableEq, Repr

/-- One host call: the identifier followed by the six arguments, in order. -/
structure HostCall where
  num : Int
  a0 : Arg
  a1 : Arg
  a2 : Arg
  a3 : Arg
  a4 : Arg
  a5 : Arg
  deriving DecidableEq, Repr

/-- What the host hands back from one call: the status, its own next state,
and the guest memory as the host leaves it. -/
structure Reply (σ : Type) where
  status : Int
  host : σ
  mem : Memory

/-- Modelled from the spec: the host side of `syscall`, declared in the header
`ckb_syscalls.h`, which is not part of the sources at hand. The spec says the
call "Returns a host-defined integer status code" and that the space of
status codes is not documented, so a host is an arbitrary function from its
own state, the guest memory and the call to a reply, and the status of a reply
is an integer on which no bound is assumed.
A host always replies here: one that stops the guest in the middle of the call
returns no status, and the statements below say nothing about it. -/
abbrev Host (σ : Type) := σ → Memory → HostCall → Reply σ

/-- The state a guest computation runs in: guest memory, the state of the
host, and the host calls issued so far (oldest first). -/
structure World (σ : Type) where
  mem : Memory
  host : σ
  trace : List HostCall

/-- A guest computation returning a value of type `α`. -/
abbrev Exec (σ : Type) (α : Type) := World σ → α × World σ

/-! ## Observing guest memory -/

/-- The bytes of the characters of a string. -/
def chars (s : String) : List Byte := s.toList.map Char.toNat

/-- The object a C string literal denotes: its characters and a final NUL. -/
def strLit (s : String) : List Byte := chars s ++ [0]

/-- The `n` bytes found at `p`, when all of them lie inside the object of `p`. -/
def readBytes (m : Memory) : Ptr → Nat → Option (List Byte)
  | .null, _ => none
  | .obj b off, n =>
    match m[b]? with
    | none => none
    | some bytes =>
      if off + n ≤ bytes.length then some ((bytes.drop off).take n) else none

/-- The number of bytes at `p` before the first NUL of its object, when there
is one. -/
def strlen (m : Memory) : Ptr → Option Nat
  | .null => none
  | .obj b off =>
    match m[b]? with
    | none => none
    | some bytes =>
      let rest := bytes.drop off
      let n := (rest.takeWhile (fun c => decide (c ≠ 0))).length
      if n < rest.length then some n else none

/-- The NUL-terminated string at `p`, without its NUL. -/
def readCStr (m : Memory) (p : Ptr) : Option (List Byte) :=
  (strlen m p).bind (readBytes m p)

/-! ## The program -/

/-- Modelled from the spec: `syscall(n, a0, a1, a2, a3, a4, a5)` of the header
`ckb_syscalls.h`, which is not part of the sources at hand. It hands the
identifier and the six arguments to the host exactly once and yields the
status of the reply; the call is appended to the trace. -/
def syscall {σ : Type} (h : Host σ) (n : Int) (a0 a1 a2 a3 a4 a5 : Arg) : Exec σ Int :=
  fun w =>
    let c : HostCall := ⟨n, a0, a1, a2, a3, a4, a5⟩
    let r := h w.host w.mem c
    (r.status, ⟨r.mem, r.host, w.trace ++ [c]⟩)

/-- The function `int file_write(const char* path, void *ptr, size_t size)`:
the value of `syscall(9013, path, ptr, size, 0, 0, 0)`, returned as an `int`. -/
def file_write {σ : Type} (h : Host σ) (path : Ptr) (ptr : Ptr) (size : Nat) : Exec σ CInt :=
  fun w =>
    let r := syscall h 9013 (.ptr path) (.ptr ptr) (.size size) (.int 0) (.int 0) (.int 0) w
    (toInt r.1, r.2)

/-- The object of the string literal `"Hello World!\n"` in the program image. -/
def dataLit : Ptr := .obj 0 0

/-- The object of the string literal `"file_write_foo.txt"` in the program image. -/
def pathLit : Ptr := .obj 1 0

/-- The read-only data of the program: its two string literals. -/
def image : Memory := [strLit "Hello World!\n", strLit "file_write_foo.txt"]

/-- The function `int main()`. -/
def main {σ : Type} (h : Host σ) : Exec σ CInt :=
  fun w =>
    let data : Ptr := dataLit
    let size : Nat := 13
    let r := file_write h pathLit data size w
    (CInt.zero, r.2)

/-- The state in which `main` is entered: the program image is loaded, the
host is in some state `s`, and no host call has been issued yet. -/
def boot {σ : Type} (s : σ) : World σ := ⟨image, s, []⟩

/-! ## Observing the host side -/

/-- A host that answers every call with the same status and touches nothing. -/
def constHost (v : Int) : Host Unit := fun _ m _ => ⟨v, (), m⟩

/-- The host `h` with a recorder in front of it. Its state is the state of
`h` together with a log; every call it receives is passed on to `h` once and
entered in the log with the guest memory it came with. The log is written by
the host, so it holds what the host was handed, call by call. -/
def recording {σ : Type} (h : Host σ) : Host (σ × List (HostCall × Memory)) :=
  fun st m c =>
    let r := h st.1 m c
    ⟨r.status, (r.host, st.2 ++ [(c, m)]), r.mem⟩

/-- What a file-write host reads out of one call it is handed: the
identifier, the string at the path argument, the bytes at the buffer argument
over the given size, the size, and the three last arguments. -/
structure Seen where
  num : Int
  path : Option (List Byte)
  buf : Option (List Byte)
  size : Option Nat
  a3 : Arg
  a4 : Arg
  a5 : Arg
  deriving DecidableEq, Repr

/-- The string a host finds at an argument, in the memory `m` it is handed. -/
def argStr (m : Memory) : Arg → Option (List Byte)
  | .ptr p => readCStr m p
  | _ => none

/-- The bytes a host finds at a buffer argument over a size argument plus
`k`, in the memory `m` it is handed. -/
def argBytes (m : Memory) (k : Nat) : Arg → Arg → Option (List Byte)
  | .ptr p, .size n => readBytes m p (n + k)
  | _, _ => none

/-- The length of the string a host finds at an argument. -/
def argStrlen (m : Memory) : Arg → Option Nat
  | .ptr p => strlen m p
  | _ => none

/-- The size a size argument carries. -/
def argSize : Arg → Option Nat
  | .size n => some n
  | _ => none

/-- The view of one recorded call. -/
def seen (e : HostCall × Memory) : Seen :=
  ⟨e.1.num, argStr e.2 e.1.a0, argBytes e.2 0 e.1.a1 e.1.a2, argSize e.1.a2,
    e.1.a3, e.1.a4, e.1.a5⟩

/-- How the size of one recorded call sits in the object of its buffer. -/
structure Extent where
  size : Option Nat
  strlen : Option Nat
  covered : Option (List Byte)
  oneMore : Option (List Byte)
  twoMore : Option (List Byte)
  deriving DecidableEq, Repr

/-- The extent of one recorded call: the size handed over, the length of the
string at the buffer, the bytes the size covers, and what a size larger by one
and by two would cover (nothing, when that leaves the object). -/
def extent (e : HostCall × Memory) : Extent :=
  ⟨argSize e.1.a2, argStrlen e.2 e.1.a1, argBytes e.2 0 e.1.a1 e.1.a2,
    argBytes e.2 1 e.1.a1 e.1.a2, argBytes e.2 2 e.1.a1 e.1.a2⟩

/-- Whether an integer is a value of the type `int`. -/
def fitsInt (v : Int) : Prop := -2147483648 ≤ v ∧ v ≤ 2147483647

instance (v : Int) : Decidable (fitsInt v) := by
  unfold fitsInt
  exact inferInstance

/-! ## Properties -/

/-- Conversion to `int` keeps a value that is in the range of `int`. -/
theorem toInt_of_fits (v : Int) (hv : fitsInt v) : (toInt v).val = v := by
  unfold fitsInt at hv
  show (v + 2147483648) % 4294967296 - 2147483648 = v
  omega

/-- Conversion to `int` changes a value that is not in the range of `int`. -/
theorem toInt_of_not_fits (v : Int) (hv : ¬ fitsInt v) : (toInt v).val ≠ v := by
  intro hEq
  exact hv ⟨by rw [← hEq]; exact (toInt v).lo, by rw [← hEq]; exact (toInt v).hi⟩

/-- Every `int` status is one some host returns from the call `main` makes, so
the statements below that range over all hosts range over all statuses. -/
theorem every_status_possible (r : CInt) :
    (file_write (constHost r.val) pathLit dataLit 13 (boot ())).1 = r := by
  have hv : (toInt r.val).val = r.val := toInt_of_fits r.val ⟨r.lo, r.hi⟩
  show toInt r.val = r
  cases r with
  | mk v lo hi =>
    simp only [toInt, CInt.mk.injEq]
    simpa [toInt] using hv

/-- What a host reads out of the call `main` makes, with the program image. -/
theorem seen_image :
    seen (⟨9013, .ptr pathLit, .ptr dataLit, .size 13, .int 0, .int 0, .int 0⟩, image)
      = ⟨9013, some (chars "file_write_foo.txt"), some (chars "Hello World!\n"), some 13,
          .int 0, .int 0, .int 0⟩ := by
  decide

/-- The extent of the call `main` makes, with the program image. -/
theorem extent_image :
    extent (⟨9013, .ptr pathLit, .ptr dataLit, .size 13, .int 0, .int 0, .int 0⟩, image)
      = ⟨some 13, some 13, some (chars "Hello World!\n"),
          some (chars "Hello World!\n" ++ [0]), none⟩ := by
  decide

/-- C1: `main` returns the exit code 0 against every host and from every
state, that is, for every status the host returns from the file-write call;
two runs from the same state against different hosts return the same exit
code. -/
theorem main_exit_code_zero {σ : Type} (h : Host σ) (w : World σ) :
    (main h w).1.val = 0 ∧ ∀ g : Host σ, (main g w).1 = (main h w).1 :=
  ⟨rfl, fun _ => rfl⟩

/-- C2: for every path, buffer pointer (null included), size (0 included),
host and state, `file_write path ptr size` hands the host exactly one call,
with identifier 9013 and the arguments `(path, ptr, size, 0, 0, 0)` in this
order. The state it leaves is the one the host's reply to this one call
leaves (its memory, its host state), and a recorder in front of the host has
received this one call more, with the memory of the caller. -/
theorem file_write_issues_one_call {σ : Type} (h : Host σ) (path ptr : Ptr) (size : Nat)
    (w : World σ) (log : List (HostCall × Memory)) :
    (file_write h path ptr size w).2
        = ⟨(h w.host w.mem
              ⟨9013, .ptr path, .ptr ptr, .size size, .int 0, .int 0, .int 0⟩).mem,
            (h w.host w.mem
              ⟨9013, .ptr path, .ptr ptr, .size size, .int 0, .int 0, .int 0⟩).host,
            w.trace ++ [⟨9013, .ptr path, .ptr ptr, .size size, .int 0, .int 0, .int 0⟩]⟩
      ∧ (file_write (recording h) path ptr size ⟨w.mem, (w.host, log), w.trace⟩).2.host.2
        = log ++ [(⟨9013, .ptr path, .ptr ptr, .size size, .int 0, .int 0, .int 0⟩, w.mem)] :=
  ⟨rfl, rfl⟩

/-- C3, as stated, fails: a host may return the status 2^32 + 5, which is not
a value of `int`, and `file_write` then returns 5. -/
theorem file_write_status_not_preserved :
    (constHost 4294967301 () image
        ⟨9013, .ptr pathLit, .ptr dataLit, .size 13, .int 0, .int 0, .int 0⟩).status
        = 4294967301
      ∧ (file_write (constHost 4294967301) pathLit dataLit 13 (boot ())).1.val = 5
      ∧ (file_write (constHost 4294967301) pathLit dataLit 13 (boot ())).1.val
        ≠ (constHost 4294967301 () image
            ⟨9013, .ptr pathLit, .ptr dataLit, .size 13, .int 0, .int 0, .int 0⟩).status := by
  decide

/-- C3, amended: for every path, buffer pointer, size, host and state, the
value `file_write path ptr size` returns is the status of the reply the host
gives to that call, converted to `int` and not changed otherwise; it is that
status itself whenever the status is a value of `int`. -/
theorem file_write_returns_host_status {σ : Type} (h : Host σ) (path ptr : Ptr)
    (size : Nat) (w : World σ) :
    (file_write h path ptr size w).1
        = toInt (h w.host w.mem
            ⟨9013, .ptr path, .ptr ptr, .size size, .int 0, .int 0, .int 0⟩).status
      ∧ (fitsInt (h w.host w.mem
            ⟨9013, .ptr path, .ptr ptr, .size size, .int 0, .int 0, .int 0⟩).status →
          (file_write h path ptr size w).1.val
            = (h w.host w.mem
                ⟨9013, .ptr path, .ptr ptr, .size size, .int 0, .int 0, .int 0⟩).status) :=
  ⟨rfl, fun hv => toInt_of_fits _ hv⟩

/-- Witness of the amended C3: the status -1 is a value of `int`, and
`file_write` returns -1 against a host that returns it. -/
theorem file_write_returns_host_status_witness :
    fitsInt (-1) ∧ (file_write (constHost (-1)) pathLit dataLit 13 (boot ())).1.val = -1 :=
  ⟨by decide,
    (file_write_returns_host_status (constHost (-1)) pathLit dataLit 13 (boot ())).2
      (by decide)⟩

/-- C4: against every host and from every initial host state, a run of `main`
hands the host exactly one call. The run ends with exit code 0 in the state
the host's reply to the one call `(9013; path, buffer, 13, 0, 0, 0)` leaves; a
recorder in front of the host has received this call and no other; and what
the host reads out of it, in the memory handed over with it, is the path
"file_write_foo.txt", the 13 bytes "Hello World!\n", the size 13 and three
zeros. -/
theorem main_issues_single_call {σ : Type} (h : Host σ) (s : σ) :
    main h (boot s)
        = (CInt.zero,
            ⟨(h s image
                ⟨9013, .ptr pathLit, .ptr dataLit, .size 13, .int 0, .int 0, .int 0⟩).mem,
              (h s image
                ⟨9013, .ptr pathLit, .ptr dataLit, .size 13, .int 0, .int 0, .int 0⟩).host,
              [⟨9013, .ptr pathLit, .ptr dataLit, .size 13, .int 0, .int 0, .int 0⟩]⟩)
      ∧ ((main (recording h) (boot (s, []))).2.host.2).length = 1
      ∧ ((main (recording h) (boot (s, []))).2.host.2).map seen
        = [⟨9013, some (chars "file_write_foo.txt"), some (chars "Hello World!\n"), some 13,
            .int 0, .int 0, .int 0⟩] := by
  refine ⟨rfl, rfl, ?_⟩
  show [seen (⟨9013, .ptr pathLit, .ptr dataLit, .size 13, .int 0, .int 0, .int 0⟩, image)]
    = _
  rw [seen_image]

/-- C5: against every host, the one call the host receives from a run of
`main` carries the size 13, which is the length of "Hello World!\n" and the
number of bytes found at the buffer before the NUL of the literal, in the
memory handed over with the call; the bytes the size covers are the whole
message; one byte more would be the NUL, and two bytes more would leave the
literal. -/
theorem main_size_matches_literal {σ : Type} (h : Host σ) (s : σ) :
    ((main (recording h) (boot (s, []))).2.host.2).map extent
        = [⟨some 13, some 13, some (chars "Hello World!\n"),
            some (chars "Hello World!\n" ++ [0]), none⟩]
      ∧ (chars "Hello World!\n").length = 13 := by
  refine ⟨?_, by decide⟩
  show [extent (⟨9013, .ptr pathLit, .ptr dataLit, .size 13, .int 0, .int 0, .int 0⟩, image)]
    = _
  rw [extent_image]

end FileWrite
